import Mathlib

/-!
Shallow embedding of the credential / token lifecycle manager of the
ydb-nodejs-sdk (file `src/examples/basic-example/index.ts`, credentials
portion): the static-token auth strategy (`TokenAuthService`) and the
refreshing IAM token strategy (`IamAuthService`), together with the
metadata builder `makeCredentialsMetadata`.

Modelling conventions:
- UTC time is modelled as `Nat` milliseconds since the epoch
  (`DateTime.utc()` yields the current value; luxon `diff(..).valueOf()`
  is milliseconds, modelled as `Int` subtraction).
- `Buffer` (the private key bytes) is modelled as `List Nat`.
- An asynchronous call that may throw is a function into `Except`.
- The network is modelled by an explicit environment (`ExchangeEnv`)
  recording when the token-exchange RPC settles and with what outcome;
  `Promise.race` against the `setTimeout` timer becomes a comparison of
  the settle time with the request timeout.
-/

namespace Ydb

/-- `Buffer` of node.js, as raw bytes. -/
def Buffer := List Nat
deriving DecidableEq

/-- A `grpc.Metadata` object: an ordered list of header/value entries
(`metadata.add` appends an entry). -/
structure Metadata where
  entries : List (String × String)
deriving DecidableEq, Repr

/-- `makeCredentialsMetadata`: builds a fresh metadata object and adds the
token under the fixed header `x-ydb-auth-ticket`. -/
def makeCredentialsMetadata (token : String) : Metadata :=
  { entries := [("x-ydb-auth-ticket", token)] }

/-- `ISslCredentials` is declared in `utils.ts`, which is outside the
provided sources. Modelled from the spec: opaque transport-security
material for the token-exchange connection. -/
structure ISslCredentials where
  material : List Nat
deriving DecidableEq

/-- `IIAmCredentials`: the service-account identity material plus the
token-exchange endpoint address. -/
structure IIAmCredentials where
  serviceAccountId : String
  accessKeyId : String
  privateKey : Buffer
  iamEndpoint : String
deriving DecidableEq

/-- `IAuthCredentials`: construction input of `IamAuthService`. -/
structure IAuthCredentials where
  sslCredentials : ISslCredentials
  iamCredentials : IIAmCredentials
deriving DecidableEq

/-! ## TokenAuthService (static-token strategy) -/

/-- `TokenAuthService`: wraps a fixed bearer token string. It has no other
state and no mutable fields. -/
structure TokenAuthService where
  token : String
deriving DecidableEq

namespace TokenAuthService

/-- `TokenAuthService.getAuthMetadata`: returns the metadata for the fixed
token. The method body cannot throw and touches no mutable state, so it is
a pure function of the wrapped token. -/
def getAuthMetadata (s : TokenAuthService) : Metadata :=
  makeCredentialsMetadata s.token

/-- Repeated invocation of the static strategy: the list of results of `n`
successive `getAuthMetadata()` calls. -/
def runStaticCalls (s : TokenAuthService) (n : Nat) : List Metadata :=
  List.replicate n (getAuthMetadata s)

end TokenAuthService

/-! ## IamAuthService (refreshing strategy) -/

/-- The error outcomes a `getAuthMetadata()` call of the refreshing
strategy can surface: the timeout rejection (the `setTimeout(reject, ...)`
timer firing first), the `Received empty token from IAM!` error, or a
transport failure propagated unchanged from the RPC layer. -/
inductive AuthError where
  | timeout
  | emptyToken
  | transport (message : String)
deriving DecidableEq, Repr

/-- Mutable and immutable fields of an `IamAuthService` instance.
`endpoint` records the address handed to the `GrpcService` superclass
(declared in `utils.ts`, outside the provided sources; modelled from the
spec: the superclass stores the endpoint and builds the transport lazily,
without eager validation). -/
structure IamAuthState where
  token : String
  tokenTimestamp : Option Nat
  iamCredentials : IIAmCredentials
  sslCredentials : ISslCredentials
  endpoint : String
deriving DecidableEq

namespace IamAuthService

/-- `jwtExpirationTimeout = 3600 * 1000` milliseconds. -/
def jwtExpirationTimeout : Nat := 3600 * 1000

/-- `tokenExpirationTimeout = 120 * 1000` milliseconds. -/
def tokenExpirationTimeout : Nat := 120 * 1000

/-- `tokenRequestTimeout = 10 * 1000` milliseconds. -/
def tokenRequestTimeout : Nat := 10 * 1000

/-- The `IamAuthService` constructor: forwards the endpoint and ssl
credentials to the `GrpcService` superclass, stores the identity material,
and initialises `token = ''`, `tokenTimestamp = null`. No input is
inspected or validated. -/
def construct (authCredentials : IAuthCredentials) : IamAuthState :=
  { token := ""
    tokenTimestamp := none
    iamCredentials := authCredentials.iamCredentials
    sslCredentials := authCredentials.sslCredentials
    endpoint := authCredentials.iamCredentials.iamEndpoint }

/-- `Math.round(ms / 1000)`: milliseconds to seconds, rounding half up
(luxon's `toSeconds()` is fractional seconds). -/
def roundToSeconds (ms : Nat) : Nat :=
  (ms + 500) / 1000

/-- The payload of the JWT built by `getJwtRequest`. -/
structure JwtPayload where
  iss : String
  aud : String
  iat : Nat
  exp : Nat
deriving DecidableEq

/-- The result of `jwt.sign(payload, key, options)`: the signed assertion,
recorded as the payload together with the signing inputs (`jsonwebtoken`
is an external library; its output is determined by these inputs). -/
structure SignedJwt where
  payload : JwtPayload
  algorithm : String
  keyid : String
  key : Buffer
deriving DecidableEq

/-- `getJwtRequest` at UTC time `now` (milliseconds): payload with
`iss` = service-account id, `aud` = the fixed audience URI,
`iat` = `Math.round(now.toSeconds())`,
`exp` = `Math.round((now + jwtExpirationTimeout).toSeconds())`,
signed with `PS256` and `keyid` = access-key id using the private key. -/
def getJwtRequest (s : IamAuthState) (now : Nat) : SignedJwt :=
  let expires := now + jwtExpirationTimeout
  { payload :=
      { iss := s.iamCredentials.serviceAccountId
        aud := "https://iam.api.cloud.yandex.net/iam/v1/tokens"
        iat := roundToSeconds now
        exp := roundToSeconds expires }
    algorithm := "PS256"
    keyid := s.iamCredentials.accessKeyId
    key := s.iamCredentials.privateKey }

/-- The `expired` getter at UTC time `now`:
`!tokenTimestamp || DateTime.utc().diff(tokenTimestamp).valueOf() > tokenExpirationTimeout`. -/
def expired (s : IamAuthState) (now : Nat) : Bool :=
  match s.tokenTimestamp with
  | none => true
  | some ts => decide ((now : Int) - (ts : Int) > (tokenExpirationTimeout : Int))

deriving instance DecidableEq for Except

/-- The behaviour of the remote token-exchange endpoint for one refresh
attempt: `responseTime` is the number of milliseconds after the request is
sent at which `this.api.create({jwt})` settles, and `response` is its
outcome — a transport rejection, or an `ICreateIamTokenResponse` whose
optional `iamToken` field is `Option String`. -/
structure ExchangeEnv where
  responseTime : Nat
  response : Except String (Option String)
deriving DecidableEq

/-- `sendTokenRequest`: races the RPC against a timer armed for
`tokenRequestTimeout`. If the timer fires first (the RPC settles strictly
after the timeout) the race rejects with the timeout; otherwise the RPC's
own settlement is the result, a transport error surfacing unchanged. -/
def sendTokenRequest (env : ExchangeEnv) : Except AuthError (Option String) :=
  if env.responseTime > tokenRequestTimeout then
    .error .timeout
  else
    match env.response with
    | .error e => .error (.transport e)
    | .ok r => .ok r

/-- `updateToken` started at UTC time `now`: awaits the raced request; on
a response carrying a truthy (non-empty) `iamToken`, assigns `token` and
`tokenTimestamp = DateTime.utc()` (evaluated when the response arrives, at
`now + responseTime`); otherwise throws, leaving the fields untouched. -/
def updateToken (s : IamAuthState) (now : Nat) (env : ExchangeEnv) :
    Except AuthError IamAuthState :=
  match sendTokenRequest env with
  | .error e => .error e
  | .ok resp =>
    match resp with
    | some iamToken =>
      if iamToken = "" then
        .error .emptyToken
      else
        .ok { s with token := iamToken, tokenTimestamp := some (now + env.responseTime) }
    | none => .error .emptyToken

/-- Observable outcome of one `getAuthMetadata()` call on the refreshing
strategy: the returned metadata or the surfaced error, the state of the
instance after the call, and the number of token-exchange requests the
call issued. -/
structure CallResult where
  result : Except AuthError Metadata
  state : IamAuthState
  requests : Nat
deriving DecidableEq

/-- `IamAuthService.getAuthMetadata` at UTC time `now` against exchange
behaviour `env`: refresh exactly when `expired`, then build the metadata
from the current token. A refresh failure propagates and leaves the state
as it was (the only mutations are the two assignments inside
`updateToken`'s success branch). -/
def getAuthMetadata (s : IamAuthState) (now : Nat) (env : ExchangeEnv) : CallResult :=
  if expired s now then
    match updateToken s now env with
    | .error e => { result := .error e, state := s, requests := 1 }
    | .ok s2 => { result := .ok (makeCredentialsMetadata s2.token), state := s2, requests := 1 }
  else
    { result := .ok (makeCredentialsMetadata s.token), state := s, requests := 0 }

/-- One call in a sequence: the UTC time at which it is made and the
exchange behaviour it would observe if it refreshes. -/
structure CallEvent where
  now : Nat
  env : ExchangeEnv
deriving DecidableEq

/-- Run a sequence of `getAuthMetadata()` calls, threading the state;
returns the final state, the total number of exchange requests issued,
and the per-call results. -/
def runCalls (s : IamAuthState) :
    List CallEvent → IamAuthState × Nat × List (Except AuthError Metadata)
  | [] => (s, 0, [])
  | e :: es =>
    let r := getAuthMetadata s e.now e.env
    let rest := runCalls r.state es
    (rest.1, r.requests + rest.2.1, r.result :: rest.2.2)

/-- The staleness condition as the spec words it (refinement reference for
the `expired` getter): true if no token has ever been issued, or the
elapsed UTC time since `IssuedAt` exceeds the 120-second threshold. -/
def stalenessSpec (s : IamAuthState) (now : Nat) : Bool :=
  match s.tokenTimestamp with
  | none => true
  | some ts => decide ((now : Int) - (ts : Int) > 120 * 1000)

/-! ### Concrete fixtures used to instantiate the theorems -/

/-- Sample construction input with non-trivial identity material. -/
def sampleCreds : IAuthCredentials :=
  { sslCredentials := { material := [7] }
    iamCredentials :=
      { serviceAccountId := "sa-id"
        accessKeyId := "key-id"
        privateKey := [1, 2, 3]
        iamEndpoint := "iam.example.com:443" } }

/-- An exchange that answers in 500 ms with token `tok1`. -/
def sampleOkEnv : ExchangeEnv := { responseTime := 500, response := .ok (some "tok1") }

/-- An exchange that answers in 500 ms with an empty token. -/
def sampleEmptyEnv : ExchangeEnv := { responseTime := 500, response := .ok (some "") }

/-- An exchange that answers only after 15 s, past the 10 s timeout. -/
def sampleLateEnv : ExchangeEnv := { responseTime := 15000, response := .ok (some "late") }

/-- A state right after a successful refresh at UTC time 0. -/
def sampleIssuedState : IamAuthState :=
  { construct sampleCreds with token := "tok1", tokenTimestamp := some 0 }

/-- Two calls at 2 s and at exactly 120 s after the refresh of
`sampleIssuedState`: both inside the staleness threshold. -/
def sampleFreshEvents : List CallEvent :=
  [ { now := 2000, env := sampleOkEnv }, { now := 120000, env := sampleEmptyEnv } ]

/-- Construction input whose every string, key and endpoint is empty. -/
def emptyAuthCredentials : IAuthCredentials :=
  { sslCredentials := { material := [] }
    iamCredentials := { serviceAccountId := "", accessKeyId := "", privateKey := [], iamEndpoint := "" } }

end IamAuthService

end Ydb

namespace Ydb

open IamAuthService

/-- C1: the staleness check of the refreshing strategy is true exactly when
no token has ever been issued or the elapsed UTC time since `IssuedAt`
exceeds the 120-second threshold, and `getAuthMetadata()` performs a
refresh (issues a token-exchange request) exactly when that check is
true. -/
theorem iam_expired_staleness_correct (s : IamAuthState) (now : Nat) (env : ExchangeEnv) :
    expired s now = stalenessSpec s now ∧
    (getAuthMetadata s now env).requests = (if expired s now then 1 else 0) := by
  constructor
  · cases h : s.tokenTimestamp <;>
      simp [expired, stalenessSpec, h, tokenExpirationTimeout]
  · by_cases h : expired s now
    · simp only [getAuthMetadata, h, if_true]
      cases h2 : updateToken s now env <;> simp [h2]
    · simp [getAuthMetadata, h]

/-- C6: every signed assertion built by `getJwtRequest` has issuer equal to
the service-account id, audience equal to the fixed token-exchange URI,
issued-at equal to the current time (rounded to seconds), expiry equal to
issued-at plus the 3600-second validity window, and is signed with `PS256`
under the private key and signing-key id; two assertions from the same
identity at different times agree on every field except `iat`/`exp`. -/
theorem iam_jwt_request_fields (s : IamAuthState) (now now2 : Nat) :
    (getJwtRequest s now).payload.iss = s.iamCredentials.serviceAccountId ∧
    (getJwtRequest s now).payload.aud = "https://iam.api.cloud.yandex.net/iam/v1/tokens" ∧
    (getJwtRequest s now).payload.iat = roundToSeconds now ∧
    (getJwtRequest s now).payload.exp = (getJwtRequest s now).payload.iat + 3600 ∧
    (getJwtRequest s now).algorithm = "PS256" ∧
    (getJwtRequest s now).keyid = s.iamCredentials.accessKeyId ∧
    (getJwtRequest s now).key = s.iamCredentials.privateKey ∧
    (getJwtRequest s now2).payload.iss = (getJwtRequest s now).payload.iss ∧
    (getJwtRequest s now2).payload.aud = (getJwtRequest s now).payload.aud ∧
    (getJwtRequest s now2).algorithm = (getJwtRequest s now).algorithm ∧
    (getJwtRequest s now2).keyid = (getJwtRequest s now).keyid ∧
    (getJwtRequest s now2).key = (getJwtRequest s now).key := by
  refine ⟨rfl, rfl, rfl, ?_, rfl, rfl, rfl, rfl, rfl, rfl, rfl, rfl⟩
  show roundToSeconds (now + jwtExpirationTimeout) = roundToSeconds now + 3600
  simp only [roundToSeconds, jwtExpirationTimeout]
  omega

/-- C8: the static-token strategy returns, on every one of any number of
invocations, a metadata object carrying exactly the wrapped string under
the header `x-ydb-auth-ticket`; it is a pure total function of the token
(no state, no failure, no network), illustrated at `abc123`. -/
theorem token_auth_static_metadata (tok : String) (n : Nat) :
    TokenAuthService.getAuthMetadata ⟨tok⟩ = { entries := [("x-ydb-auth-ticket", tok)] } ∧
    TokenAuthService.runStaticCalls ⟨tok⟩ n =
      List.replicate n { entries := [("x-ydb-auth-ticket", tok)] } ∧
    TokenAuthService.getAuthMetadata ⟨"abc123"⟩ =
      { entries := [("x-ydb-auth-ticket", "abc123")] } :=
  ⟨rfl, rfl, rfl⟩

/-- C9 counterexample: the claim says construction fails for every
empty/malformed input; but the constructor validates nothing — with every
field empty it succeeds and stores the empty inputs verbatim. -/
theorem iam_construct_empty_accepted_counterexample :
    construct emptyAuthCredentials =
      { token := ""
        tokenTimestamp := none
        iamCredentials := { serviceAccountId := "", accessKeyId := "", privateKey := [], iamEndpoint := "" }
        sslCredentials := { material := [] }
        endpoint := "" } := rfl

/-- C9 amended: construction of the refreshing strategy performs no
validation of its inputs — for every input, empty or not, it succeeds,
storing the identity material, endpoint and transport-security material
verbatim and initialising the cache to (empty token, null timestamp). -/
theorem iam_construct_no_validation (c : IAuthCredentials) :
    construct c =
      { token := ""
        tokenTimestamp := none
        iamCredentials := c.iamCredentials
        sslCredentials := c.sslCredentials
        endpoint := c.iamCredentials.iamEndpoint } := rfl

/-- Helper: a call on a non-stale state is a pure read — cached metadata,
unchanged state, zero exchange requests. -/
theorem getAuthMetadata_not_expired (s : IamAuthState) (now : Nat) (env : ExchangeEnv)
    (h : expired s now = false) :
    getAuthMetadata s now env =
      { result := .ok (makeCredentialsMetadata s.token), state := s, requests := 0 } := by
  simp [getAuthMetadata, h]

/-- Helper: a fresh timestamp within the threshold makes `expired` false. -/
theorem expired_false_of_within (s : IamAuthState) (ts now : Nat)
    (hts : s.tokenTimestamp = some ts)
    (hwithin : (now : Int) - (ts : Int) ≤ (tokenExpirationTimeout : Int)) :
    expired s now = false := by
  simp only [expired, hts, decide_eq_false_iff_not, not_lt]
  exact hwithin

/-- C2: every sequence of calls made while the cached token is within the
staleness threshold returns the same cached token under
`x-ydb-auth-ticket` on each call, issues zero exchange requests in total,
and leaves the state (Credential and IssuedAt) exactly as it was. -/
theorem iam_fresh_calls_cached_noop (s : IamAuthState) (ts : Nat) (events : List CallEvent)
    (hts : s.tokenTimestamp = some ts)
    (hfresh : ∀ e ∈ events, ((e.now : Int) - (ts : Int)) ≤ (tokenExpirationTimeout : Int)) :
    runCalls s events =
      (s, 0, events.map (fun _ => Except.ok (makeCredentialsMetadata s.token))) := by
  induction events with
  | nil => rfl
  | cons e es ih =>
    have hexp : expired s e.now = false :=
      expired_false_of_within s ts e.now hts (hfresh e (List.mem_cons_self e es))
    have h1 := getAuthMetadata_not_expired s e.now e.env hexp
    have h2 := ih (fun x hx => hfresh x (List.mem_cons_of_mem e hx))
    simp [runCalls, h1, h2]

/-- C2 witness: two calls at 2 s and 120 s after a refresh at time 0 both
return the cached token `tok1`, with zero requests and unchanged state. -/
theorem iam_fresh_calls_cached_noop_witness :
    runCalls sampleIssuedState sampleFreshEvents =
      (sampleIssuedState, 0,
        sampleFreshEvents.map
          (fun _ => Except.ok (makeCredentialsMetadata sampleIssuedState.token))) :=
  iam_fresh_calls_cached_noop sampleIssuedState 0 sampleFreshEvents rfl (by decide)

/-- C3: when a refresh is attempted and the exchange responds in time with
a missing or empty token, the call fails with the empty-token error, the
state is exactly the pre-attempt state, and every later staleness check is
computed from the original timestamp. -/
theorem iam_empty_token_error_preserves_state (s : IamAuthState) (now : Nat) (env : ExchangeEnv)
    (hstale : expired s now = true)
    (htime : env.responseTime ≤ tokenRequestTimeout)
    (hempty : env.response = .ok none ∨ env.response = .ok (some "")) :
    (getAuthMetadata s now env).result = .error .emptyToken ∧
    (getAuthMetadata s now env).state = s ∧
    ∀ later, expired (getAuthMetadata s now env).state later = expired s later := by
  have hnl : ¬ env.responseTime > tokenRequestTimeout := not_lt.mpr htime
  have hupd : updateToken s now env = .error .emptyToken := by
    rcases hempty with h | h <;> simp [updateToken, sendTokenRequest, hnl, h]
  refine ⟨?_, ?_, ?_⟩ <;> simp [getAuthMetadata, hstale, hupd]

/-- C3 witness: a stale state refreshed against an in-time empty-token
response fails with the empty-token error and keeps its state. -/
theorem iam_empty_token_error_preserves_state_witness :
    (getAuthMetadata sampleIssuedState 200000 sampleEmptyEnv).result = .error .emptyToken ∧
    (getAuthMetadata sampleIssuedState 200000 sampleEmptyEnv).state = sampleIssuedState ∧
    ∀ later, expired (getAuthMetadata sampleIssuedState 200000 sampleEmptyEnv).state later =
      expired sampleIssuedState later :=
  iam_empty_token_error_preserves_state sampleIssuedState 200000 sampleEmptyEnv
    (by decide) (by decide) (Or.inr rfl)

/-- C4: when the exchange settles only after the 10-second request
timeout, the call fails with the timeout error, the state is unchanged,
and the late result is discarded — whatever the late response would have
been (success or failure), the call's outcome and resulting state are
identical. -/
theorem iam_timeout_error_discards_late_result (s : IamAuthState) (now : Nat) (env : ExchangeEnv)
    (hstale : expired s now = true)
    (hlate : env.responseTime > tokenRequestTimeout) :
    (getAuthMetadata s now env).result = .error .timeout ∧
    (getAuthMetadata s now env).state = s ∧
    (∀ resp, getAuthMetadata s now { env with response := resp } = getAuthMetadata s now env) ∧
    tokenRequestTimeout = 10 * 1000 := by
  have hupd : ∀ resp, updateToken s now { env with response := resp } = .error .timeout := by
    intro resp
    simp [updateToken, sendTokenRequest, hlate]
  have hupd0 : updateToken s now env = .error .timeout := by
    simp [updateToken, sendTokenRequest, hlate]
  refine ⟨?_, ?_, ?_, rfl⟩
  · simp [getAuthMetadata, hstale, hupd0]
  · simp [getAuthMetadata, hstale, hupd0]
  · intro resp
    simp [getAuthMetadata, hstale, hupd0, hupd resp]

/-- C4 witness: a stale state refreshed against an exchange settling at
15 s fails with the timeout error, keeps its state, and ignores the late
response's content. -/
theorem iam_timeout_error_discards_late_result_witness :
    (getAuthMetadata sampleIssuedState 200000 sampleLateEnv).result = .error .timeout ∧
    (getAuthMetadata sampleIssuedState 200000 sampleLateEnv).state = sampleIssuedState ∧
    (∀ resp, getAuthMetadata sampleIssuedState 200000 { sampleLateEnv with response := resp } =
      getAuthMetadata sampleIssuedState 200000 sampleLateEnv) ∧
    tokenRequestTimeout = 10 * 1000 :=
  iam_timeout_error_discards_late_result sampleIssuedState 200000 sampleLateEnv
    (by decide) (by decide)

/-- Helper: trichotomy of one `getAuthMetadata()` call — a pure cache read
(not expired), a failed refresh leaving the state intact, or a successful
refresh installing a non-empty token and its timestamp together. -/
theorem getAuthMetadata_cases (s : IamAuthState) (now : Nat) (env : ExchangeEnv) :
    (expired s now = false ∧ (getAuthMetadata s now env).state = s ∧
      (getAuthMetadata s now env).result = .ok (makeCredentialsMetadata s.token) ∧
      (getAuthMetadata s now env).requests = 0) ∨
    ((getAuthMetadata s now env).state = s ∧
      ∃ e, (getAuthMetadata s now env).result = .error e) ∨
    (∃ tok, tok ≠ "" ∧
      (getAuthMetadata s now env).state =
        { s with token := tok, tokenTimestamp := some (now + env.responseTime) } ∧
      (getAuthMetadata s now env).result = .ok (makeCredentialsMetadata tok)) := by
  by_cases h : expired s now
  · rcases h3 : sendTokenRequest env with e | resp
    · right; left
      exact ⟨by simp [getAuthMetadata, h, updateToken, h3],
        e, by simp [getAuthMetadata, h, updateToken, h3]⟩
    · rcases resp with _ | tok
      · right; left
        exact ⟨by simp [getAuthMetadata, h, updateToken, h3],
          .emptyToken, by simp [getAuthMetadata, h, updateToken, h3]⟩
      · by_cases ht : tok = ""
        · right; left
          exact ⟨by simp [getAuthMetadata, h, updateToken, h3, ht],
            .emptyToken, by simp [getAuthMetadata, h, updateToken, h3, ht]⟩
        · right; right
          exact ⟨tok, ht, by simp [getAuthMetadata, h, updateToken, h3, ht],
            by simp [getAuthMetadata, h, updateToken, h3, ht]⟩
  · left
    rw [Bool.not_eq_true] at h
    simp [getAuthMetadata, h]

/-- C5: Credential and IssuedAt are updated together or not at all — every
call either leaves the state exactly as it was (returning the cached
metadata, or surfacing a refresh error), or replaces both fields at once
with a non-empty token and its matching issue timestamp. -/
theorem iam_credential_timestamp_atomic (s : IamAuthState) (now : Nat) (env : ExchangeEnv) :
    ((getAuthMetadata s now env).state = s ∧
      (getAuthMetadata s now env).result = .ok (makeCredentialsMetadata s.token) ∧
      (getAuthMetadata s now env).requests = 0) ∨
    ((getAuthMetadata s now env).state = s ∧
      ∃ e, (getAuthMetadata s now env).result = .error e) ∨
    (∃ tok, tok ≠ "" ∧
      (getAuthMetadata s now env).state =
        { s with token := tok, tokenTimestamp := some (now + env.responseTime) } ∧
      (getAuthMetadata s now env).result = .ok (makeCredentialsMetadata tok)) := by
  rcases getAuthMetadata_cases s now env with ⟨_, h1, h2, h3⟩ | h | h
  · exact Or.inl ⟨h1, h2, h3⟩
  · exact Or.inr (Or.inl h)
  · exact Or.inr (Or.inr h)

/-- C7 counterexample: the claim requires a refresh as soon as the clock is
at least 120 s past IssuedAt, but at exactly 120 000 ms past the timestamp
the strict comparison leaves `expired` false and the call issues zero
exchange requests. -/
theorem iam_boundary_no_refresh_counterexample :
    sampleIssuedState.tokenTimestamp = some 0 ∧
    (120000 : Int) - (0 : Int) ≥ 120 * 1000 ∧
    (getAuthMetadata sampleIssuedState 120000 sampleOkEnv).requests = 0 :=
  ⟨rfl, by decide, rfl⟩

/-- C7 amended: once the clock is strictly more than 120 seconds past the
last IssuedAt, the next call triggers exactly one token-exchange request
before returning. -/
theorem iam_stale_strict_one_request (s : IamAuthState) (ts now : Nat) (env : ExchangeEnv)
    (hts : s.tokenTimestamp = some ts)
    (hpast : (now : Int) - (ts : Int) > (tokenExpirationTimeout : Int)) :
    (getAuthMetadata s now env).requests = 1 := by
  have hexp : expired s now = true := by
    simp only [expired, hts, decide_eq_true_eq]
    exact hpast
  simp only [getAuthMetadata, hexp, if_true]
  rcases h2 : updateToken s now env with e | s2 <;> simp [h2]

/-- C7 amended witness: one millisecond past the threshold, the call
issues exactly one exchange request. -/
theorem iam_stale_strict_one_request_witness :
    (getAuthMetadata sampleIssuedState 120001 sampleOkEnv).requests = 1 :=
  iam_stale_strict_one_request sampleIssuedState 0 120001 sampleOkEnv rfl (by decide)

/-- Helper: a non-stale state has an issue timestamp. -/
theorem tokenTimestamp_ne_none_of_not_expired (s : IamAuthState) (now : Nat)
    (h : expired s now = false) : s.tokenTimestamp ≠ none := by
  intro hn
  simp [expired, hn] at h

/-- Helper: one call preserves the invariant that a set timestamp comes
with a non-empty token. -/
theorem tokenInv_step (s : IamAuthState) (now : Nat) (env : ExchangeEnv)
    (hinv : s.tokenTimestamp ≠ none → s.token ≠ "") :
    (getAuthMetadata s now env).state.tokenTimestamp ≠ none →
      (getAuthMetadata s now env).state.token ≠ "" := by
  rcases getAuthMetadata_cases s now env with ⟨_, hs, _, _⟩ | ⟨hs, _⟩ | ⟨tok, ht, hs, _⟩
  · rw [hs]; exact hinv
  · rw [hs]; exact hinv
  · rw [hs]; intro _; simpa using ht

/-- Helper: any sequence of calls preserves the timestamp/non-empty-token
invariant. -/
theorem tokenInv_runCalls (s : IamAuthState) (events : List CallEvent)
    (hinv : s.tokenTimestamp ≠ none → s.token ≠ "") :
    (runCalls s events).1.tokenTimestamp ≠ none → (runCalls s events).1.token ≠ "" := by
  induction events generalizing s with
  | nil => exact hinv
  | cons e es ih =>
    simp only [runCalls]
    exact ih _ (tokenInv_step s e.now e.env hinv)

/-- Helper: under the invariant, a successful call returns metadata built
from a non-empty token. -/
theorem getAuthMetadata_ok_token (s : IamAuthState) (now : Nat) (env : ExchangeEnv) (m : Metadata)
    (hinv : s.tokenTimestamp ≠ none → s.token ≠ "")
    (hm : (getAuthMetadata s now env).result = .ok m) :
    ∃ tok, tok ≠ "" ∧ m = makeCredentialsMetadata tok := by
  rcases getAuthMetadata_cases s now env with ⟨hne, _, hr, _⟩ | ⟨_, e, hr⟩ | ⟨tok, ht, _, hr⟩
  · refine ⟨s.token, hinv (tokenTimestamp_ne_none_of_not_expired s now hne), ?_⟩
    have := hr.symm.trans hm
    exact (Except.ok.inj this).symm
  · rw [hm] at hr
    cases hr
  · refine ⟨tok, ht, ?_⟩
    have := hr.symm.trans hm
    exact (Except.ok.inj this).symm

/-- C10: starting from a freshly constructed refreshing strategy, after any
sequence of calls the state satisfies the invariant that a non-null
IssuedAt comes with a non-empty Credential; hence every call that
completes successfully returns metadata whose token value is non-empty —
the initial empty Credential is never observable through a success. -/
theorem iam_nonempty_token_invariant (c : IAuthCredentials) (events : List CallEvent)
    (now : Nat) (env : ExchangeEnv) (m : Metadata)
    (hm : (getAuthMetadata (runCalls (construct c) events).1 now env).result = .ok m) :
    ((runCalls (construct c) events).1.tokenTimestamp ≠ none →
      (runCalls (construct c) events).1.token ≠ "") ∧
    ∃ tok, tok ≠ "" ∧ m = makeCredentialsMetadata tok := by
  have hinv := tokenInv_runCalls (construct c) events (fun h => absurd rfl h)
  exact ⟨hinv, getAuthMetadata_ok_token _ now env m hinv hm⟩

/-- C10 witness: the very first call on a fresh instance, against an
exchange answering `tok1`, succeeds and yields non-empty-token metadata. -/
theorem iam_nonempty_token_invariant_witness :
    (((runCalls (construct sampleCreds) []).1.tokenTimestamp ≠ none →
      (runCalls (construct sampleCreds) []).1.token ≠ "") ∧
    ∃ tok, tok ≠ "" ∧ makeCredentialsMetadata "tok1" = makeCredentialsMetadata tok) :=
  iam_nonempty_token_invariant sampleCreds [] 0 sampleOkEnv (makeCredentialsMetadata "tok1") rfl

end Ydb
